import Mathlib

/-!
Shallow embedding of the rt-dashboard-template backend
(src/backend/continuous_data.py, db.py, models.py, main.py).

Floating-point sensor values are modelled as rationals; machine floats
only ever undergo addition of small constants and exact max/min clamping
here, and every property below concerns clamping, filtering, ordering
and counting, none of which depend on the float representation.
The SQLite `metrics` table (models.py) is modelled as a list of rows in
rowid order with its UNIQUE(timestamp, sensor_id) constraint made
explicit in the insert operation.
-/

namespace RTDash

/-- The metric kinds handled by `generate_random_walk_value`
(`metric_type` is the string "temp" or "humidity" in the source). -/
inductive MetricType
  | temp
  | humidity
deriving DecidableEq, Repr

/-- The fixed sensor set `SENSORS = ["THS No. 1", "THS No. 2", "THS No. 3"]`
of continuous_data.py, as an enumerated type. -/
inductive Sensor
  | ths1
  | ths2
  | ths3
deriving DecidableEq, Repr

/-- The `sensor_id` string of each sensor. -/
def Sensor.name : Sensor → String
  | .ths1 => "THS No. 1"
  | .ths2 => "THS No. 2"
  | .ths3 => "THS No. 3"

/-- The list `SENSORS` in its fixed iteration order. -/
def SENSORS : List Sensor := [.ths1, .ths2, .ths3]

/-- The constant `TEMP_MIN = 16.0`. -/
def TEMP_MIN : ℚ := 16
/-- The constant `TEMP_MAX = 26.0`. -/
def TEMP_MAX : ℚ := 26
/-- The constant `HUMIDITY_MIN = 40.0`. -/
def HUMIDITY_MIN : ℚ := 40
/-- The constant `HUMIDITY_MAX = 70.0`. -/
def HUMIDITY_MAX : ℚ := 70

/-- The argument of `random.choice([-0.1, -0.05, 0, 0.05, 0.1])`. -/
def CHANGES : List ℚ := [-1/10, -1/20, 0, 1/20, 1/10]

/-- Per-sensor entry of the `LAST_VALUES` dict: its "temp" and "humidity" keys. -/
structure SensorState where
  temp : ℚ
  humidity : ℚ
deriving DecidableEq, Repr

/-- The module-level `LAST_VALUES` dict: one `SensorState` per sensor. -/
structure LastValues where
  ths1 : SensorState
  ths2 : SensorState
  ths3 : SensorState
deriving DecidableEq, Repr

/-- The dict read `LAST_VALUES[sensor_id]`. -/
def LastValues.get : LastValues → Sensor → SensorState
  | lv, .ths1 => lv.ths1
  | lv, .ths2 => lv.ths2
  | lv, .ths3 => lv.ths3

/-- The dict write `LAST_VALUES[sensor_id] = st`. -/
def LastValues.set : LastValues → Sensor → SensorState → LastValues
  | lv, .ths1, st => { lv with ths1 := st }
  | lv, .ths2, st => { lv with ths2 := st }
  | lv, .ths3, st => { lv with ths3 := st }

/-- The dict read `LAST_VALUES[sensor_id][metric_type]`. -/
def SensorState.get : SensorState → MetricType → ℚ
  | st, .temp => st.temp
  | st, .humidity => st.humidity

/-- The dict write `LAST_VALUES[sensor_id][metric_type] = v`. -/
def SensorState.set : SensorState → MetricType → ℚ → SensorState
  | st, .temp, v => { st with temp := v }
  | st, .humidity, v => { st with humidity := v }

/-- Read one per-sensor per-metric last value. -/
def getLast (lv : LastValues) (s : Sensor) (mt : MetricType) : ℚ :=
  (lv.get s).get mt

/-- Write one per-sensor per-metric last value. -/
def setLast (lv : LastValues) (s : Sensor) (mt : MetricType) (v : ℚ) : LastValues :=
  lv.set s ((lv.get s).set mt v)

/-- The initial contents of `LAST_VALUES` in continuous_data.py. -/
def LAST_VALUES : LastValues :=
  { ths1 := { temp := 21, humidity := 55 }
    ths2 := { temp := 22, humidity := 58 }
    ths3 := { temp := 41/2, humidity := 52 } }

/-- The function `generate_random_walk_value(sensor_id, metric_type)` of continuous_data.py,
with the module-level `LAST_VALUES` state passed explicitly and the result of
`random.choice` passed as `change`.  Returns the new value together with the
updated `LAST_VALUES` (the source stores the new value back into the dict
before returning). -/
def generate_random_walk_value (lv : LastValues) (sensor_id : Sensor)
    (metric_type : MetricType) (change : ℚ) : ℚ × LastValues :=
  let last_value := getLast lv sensor_id metric_type
  let new_value := last_value + change
  let new_value :=
    match metric_type with
    | .temp => max TEMP_MIN (min TEMP_MAX new_value)
    | .humidity => max HUMIDITY_MIN (min HUMIDITY_MAX new_value)
  (new_value, setLast lv sensor_id metric_type new_value)

/-- One row of the `metrics` table (models.py), minus the autoincrement id:
timestamp (unix seconds), sensor_id, temperature, humidity. -/
structure Reading where
  timestamp : ℤ
  sensor_id : String
  temperature : ℚ
  humidity : ℚ
deriving DecidableEq, Repr

/-- The `metrics` table as a list of rows in rowid (insertion) order. -/
abbrev Store := List Reading

/-- Does the table already hold a row with this (timestamp, sensor_id) key? -/
def hasKey (s : Store) (ts : ℤ) (sid : String) : Bool :=
  s.any fun r => r.timestamp = ts && r.sensor_id = sid

/-- The sqlite3 error message raised on a violation of
`UNIQUE(timestamp, sensor_id)` from models.py. -/
def uniqueViolationMsg : String :=
  "UNIQUE constraint failed: metrics.timestamp, metrics.sensor_id"

/-- The sqlite `INSERT INTO metrics ... VALUES (?, ?, ?, ?)` statement under
the table's UNIQUE(timestamp, sensor_id) constraint: appends the row, or
raises (here: returns the error message) leaving the table unchanged. -/
def sqlInsert (s : Store) (r : Reading) : Except String Store :=
  if hasKey s r.timestamp r.sensor_id then .error uniqueViolationMsg
  else .ok (s ++ [r])

/-- Does the needle occur at the head of the haystack? -/
def charsStartWith : List Char → List Char → Bool
  | _, [] => true
  | [], _ :: _ => false
  | c :: cs, d :: ds => c = d && charsStartWith cs ds

/-- Does the needle occur anywhere in the haystack? -/
def charsContain : List Char → List Char → Bool
  | [], needle => needle.isEmpty
  | c :: cs, needle => charsStartWith (c :: cs) needle || charsContain cs needle

/-- Python's `"UNIQUE constraint failed" in str(e)` substring test. -/
def mentionsUniqueViolation (msg : String) : Bool :=
  charsContain msg.toList "UNIQUE constraint failed".toList

/-- The except-clause of `generate_and_insert_metric`:
`if "UNIQUE constraint failed" not in str(e): print(f"Error inserting metric: ...")`.
Returns the log lines printed. -/
def logInsertError (msg : String) : List String :=
  if mentionsUniqueViolation msg then [] else ["Error inserting metric: " ++ msg]

/-- The sqlite `DELETE FROM metrics WHERE timestamp < ?` statement of
`clean_old_data`: keeps the rows with timestamp ≥ cutoff and reports
`cursor.rowcount`, the number of rows deleted. -/
def sqlDeleteOlderThan (s : Store) (cutoff : ℤ) : Store × ℕ :=
  let kept := s.filter fun r => decide (¬ r.timestamp < cutoff)
  (kept, s.length - kept.length)

/-- The function `clean_old_data(minutes=60)` of continuous_data.py, with `int(time.time())`
passed as `now`. -/
def clean_old_data (s : Store) (now : ℤ) (minutes : ℤ) : Store × ℕ :=
  let cutoff := now - minutes * 60
  sqlDeleteOlderThan s cutoff

/-- Outcome of the sensor for-loop inside the `try:` of
`generate_and_insert_metric`: either every `cursor.execute(INSERT ...)`
succeeded (giving the pending, not-yet-committed rows), or one raised,
exiting the loop before the remaining sensors run. -/
inductive LoopOutcome
  | ok (pending : Store) (lv : LastValues)
  | failed (msg : String) (lv : LastValues)
deriving Repr

/-- The `for sensor_id in SENSORS:` loop body of `generate_and_insert_metric`:
for each sensor generate temperature and humidity by random walk (this
mutates `LAST_VALUES` even when the subsequent insert raises), then execute
the INSERT against the transaction's pending view of the table.
`draws` gives the result of each `random.choice` call. -/
def insertLoop (sensors : List Sensor) (pending : Store) (lv : LastValues)
    (timestamp : ℤ) (draws : Sensor → MetricType → ℚ) : LoopOutcome :=
  match sensors with
  | [] => .ok pending lv
  | sensor_id :: rest =>
    let gt := generate_random_walk_value lv sensor_id .temp (draws sensor_id .temp)
    let gh := generate_random_walk_value gt.2 sensor_id .humidity (draws sensor_id .humidity)
    match sqlInsert pending
        { timestamp := timestamp, sensor_id := sensor_id.name,
          temperature := gt.1, humidity := gh.1 } with
    | .ok pending2 => insertLoop rest pending2 gh.2 timestamp draws
    | .error msg => .failed msg gh.2

/-- Result of one tick of `generate_and_insert_metric` followed by its
`clean_old_data()` call: the committed table, the walk state, and the
error lines printed by the except-clause. -/
structure TickResult where
  store : Store
  lv : LastValues
  logs : List String
deriving DecidableEq, Repr

/-- The function `generate_and_insert_metric(time_index)` of continuous_data.py with
`int(time.time())` at the top of the function passed as `timestamp` and the
one inside `clean_old_data` passed as `now`.  All three sensors' INSERTs run
inside one connection and are committed by the single `conn.commit()` after
the loop; when any insert raises, the loop exits, the commit is never
reached, and closing the connection discards the pending rows, so the
committed table is unchanged by the whole tick.  A UNIQUE-constraint
message is swallowed silently; any other message is printed.  Afterwards
`clean_old_data()` prunes rows older than 60 minutes. -/
def generate_and_insert_metric (store : Store) (lv : LastValues)
    (timestamp now : ℤ) (draws : Sensor → MetricType → ℚ) : TickResult :=
  match insertLoop SENSORS store lv timestamp draws with
  | .ok pending lv2 =>
    { store := (clean_old_data pending now 60).1, lv := lv2, logs := [] }
  | .failed msg lv2 =>
    { store := (clean_old_data store now 60).1, lv := lv2, logs := logInsertError msg }

/-- The `while True:` body of `run()` iterated over a finite schedule of
ticks, each tick given its wall-clock second (used both as the shared
insert timestamp and as `now` for the prune) and its random draws. -/
def runTicks (store : Store) (lv : LastValues) :
    List (ℤ × (Sensor → MetricType → ℚ)) → Store × LastValues
  | [] => (store, lv)
  | (t, d) :: rest =>
    let r := generate_and_insert_metric store lv t t d
    runTicks r.store r.lv rest

/-- The ORDER BY key of `get_metrics_last_n_minutes`:
`ORDER BY sensor_id, timestamp ASC`. -/
def rowLe (a b : Reading) : Prop :=
  a.sensor_id < b.sensor_id ∨ (a.sensor_id = b.sensor_id ∧ a.timestamp ≤ b.timestamp)

instance : DecidableRel rowLe := fun a b => by
  unfold rowLe; infer_instance

/-- The function `get_metrics_last_n_minutes(minutes=60)` of db.py with `int(time.time())`
passed as `now`:
`SELECT ... FROM metrics WHERE timestamp > ? ORDER BY sensor_id, timestamp ASC`
with `? = now - minutes*60`. -/
def get_metrics_last_n_minutes (store : Store) (now : ℤ) (minutes : ℤ) :
    List Reading :=
  let cutoff := now - minutes * 60
  List.insertionSort rowLe (store.filter fun r => decide (cutoff < r.timestamp))

/-- The JSON body and status of the metrics endpoint response: a normal
return from a FastAPI handler is serialized with HTTP status 200. -/
structure MetricsResponse where
  status : ℕ
  timestamp : ℤ
  data : List Reading
deriving DecidableEq, Repr

/-- The path string registered for the metrics endpoint in main.py:
`@app.get("/api/metrics")`. -/
def metricsRoutePath : String := "/api/metrics"

/-- The `get_metrics()` handler of main.py with the store contents and
`int(time.time())` passed explicitly: returns the current server timestamp
and the last 60 minutes of metrics. -/
def get_metrics (store : Store) (now : ℤ) : MetricsResponse :=
  { status := 200, timestamp := now, data := get_metrics_last_n_minutes store now 60 }

/-- The lower clamp bound used for a metric kind. -/
def metricMin : MetricType → ℚ
  | .temp => TEMP_MIN
  | .humidity => HUMIDITY_MIN

/-- The upper clamp bound used for a metric kind. -/
def metricMax : MetricType → ℚ
  | .temp => TEMP_MAX
  | .humidity => HUMIDITY_MAX

/-- The values emitted by a sequence of random-walk steps for one
sensor/metric pair, each step threading the updated `LAST_VALUES`. -/
def walkOutputs (lv : LastValues) (s : Sensor) (mt : MetricType) :
    List ℚ → List ℚ
  | [] => []
  | c :: cs =>
    let g := generate_random_walk_value lv s mt c
    g.1 :: walkOutputs g.2 s mt cs

/-- A value lies in the closed range of its metric kind. -/
def inRange (mt : MetricType) (v : ℚ) : Prop :=
  metricMin mt ≤ v ∧ v ≤ metricMax mt

/-- Every stored last value lies within its metric's range. -/
def WalkInvariant (lv : LastValues) : Prop :=
  ∀ s mt, inRange mt (getLast lv s mt)

/-- Number of rows of the table carrying a given (timestamp, sensor_id) key. -/
def countKey (s : Store) (ts : ℤ) (sid : String) : ℕ :=
  s.countP fun r => r.timestamp = ts && r.sensor_id = sid

lemma metricMin_le_metricMax (mt : MetricType) : metricMin mt ≤ metricMax mt := by
  cases mt <;> norm_num [metricMin, metricMax, TEMP_MIN, TEMP_MAX, HUMIDITY_MIN, HUMIDITY_MAX]

lemma generate_fst_eq (lv : LastValues) (s : Sensor) (mt : MetricType) (c : ℚ) :
    (generate_random_walk_value lv s mt c).1
      = max (metricMin mt) (min (metricMax mt) (getLast lv s mt + c)) := by
  cases mt <;> rfl

lemma generate_snd_eq (lv : LastValues) (s : Sensor) (mt : MetricType) (c : ℚ) :
    (generate_random_walk_value lv s mt c).2
      = setLast lv s mt (generate_random_walk_value lv s mt c).1 := by
  cases mt <;> rfl

lemma clamp_mem_range (mt : MetricType) (v : ℚ) :
    metricMin mt ≤ max (metricMin mt) (min (metricMax mt) v)
      ∧ max (metricMin mt) (min (metricMax mt) v) ≤ metricMax mt :=
  ⟨le_max_left _ _, max_le (metricMin_le_metricMax mt) (min_le_left _ _)⟩

lemma generate_fst_mem_range (lv : LastValues) (s : Sensor) (mt : MetricType)
    (c : ℚ) : inRange mt (generate_random_walk_value lv s mt c).1 := by
  rw [inRange, generate_fst_eq]
  exact clamp_mem_range mt _

lemma walkOutputs_mem_range (lv : LastValues) (s : Sensor) (mt : MetricType)
    (cs : List ℚ) : ∀ v ∈ walkOutputs lv s mt cs, inRange mt v := by
  induction cs generalizing lv with
  | nil => intro v hv; simp [walkOutputs] at hv
  | cons c cs ih =>
    intro v hv
    rw [walkOutputs] at hv
    rcases List.mem_cons.mp hv with h | h
    · subst h; exact generate_fst_mem_range lv s mt c
    · exact ih _ v h

/-- C1: for every sensor and metric kind, the generator's result is the
previous value plus the drawn perturbation clamped to the metric's fixed
range ([16, 26] for temperature, [40, 70] for humidity); the result of
every step of every walk sequence stays within the range inclusive; and a
perturbation that would cross a boundary from a value exactly at that
boundary yields exactly the boundary. -/
theorem C1_random_walk_clamped (lv : LastValues) (s : Sensor) (mt : MetricType)
    (c : ℚ) (_hc : c ∈ CHANGES) :
    (generate_random_walk_value lv s mt c).1
      = max (metricMin mt) (min (metricMax mt) (getLast lv s mt + c))
    ∧ inRange mt (generate_random_walk_value lv s mt c).1
    ∧ (∀ cs : List ℚ, ∀ v ∈ walkOutputs lv s mt cs, inRange mt v)
    ∧ (getLast lv s mt = metricMax mt → metricMax mt < getLast lv s mt + c →
        (generate_random_walk_value lv s mt c).1 = metricMax mt)
    ∧ (getLast lv s mt = metricMin mt → getLast lv s mt + c < metricMin mt →
        (generate_random_walk_value lv s mt c).1 = metricMin mt) := by
  refine ⟨generate_fst_eq lv s mt c, generate_fst_mem_range lv s mt c,
    fun cs => walkOutputs_mem_range lv s mt cs, ?_, ?_⟩
  · intro _ hgt
    rw [generate_fst_eq, min_eq_left (le_of_lt hgt), max_eq_right (metricMin_le_metricMax mt)]
  · intro _ hlt
    rw [generate_fst_eq, min_eq_right (le_trans (le_of_lt hlt) (metricMin_le_metricMax mt)),
      max_eq_left (le_of_lt hlt)]

/-- C1 witness: concrete instance at the temperature upper bound with the
+0.1 perturbation, yielding exactly 26. -/
theorem C1_random_walk_clamped_witness :
    (1/10 : ℚ) ∈ CHANGES
    ∧ (generate_random_walk_value
        { LAST_VALUES with ths1 := { temp := 26, humidity := 55 } }
        .ths1 .temp (1/10)).1 = metricMax .temp := by
  refine ⟨by norm_num [CHANGES], ?_⟩
  exact (C1_random_walk_clamped
    { LAST_VALUES with ths1 := { temp := 26, humidity := 55 } }
    .ths1 .temp (1/10) (by norm_num [CHANGES])).2.2.2.1
    (by norm_num [getLast, LastValues.get, SensorState.get, metricMax, TEMP_MAX])
    (by norm_num [getLast, LastValues.get, SensorState.get, metricMax, TEMP_MAX])

lemma getLast_setLast_same (lv : LastValues) (s : Sensor) (mt : MetricType)
    (v : ℚ) : getLast (setLast lv s mt v) s mt = v := by
  cases s <;> cases mt <;> rfl

lemma getLast_setLast_other (lv : LastValues) (s s' : Sensor)
    (mt mt' : MetricType) (v : ℚ) (h : ¬(s' = s ∧ mt' = mt)) :
    getLast (setLast lv s mt v) s' mt' = getLast lv s' mt' := by
  cases s <;> cases s' <;> cases mt <;> cases mt' <;>
    first
      | rfl
      | exact absurd ⟨rfl, rfl⟩ h

/-- C7: the claim that the generator modifies no state outside its return
value is false — the call stores the returned value into the module-level
`LAST_VALUES` dict itself: with the initial dict, sensor "THS No. 1",
metric "temp" and draw +0.1, the dict after the call differs from the dict
before it. -/
theorem C7_counterexample :
    (generate_random_walk_value LAST_VALUES .ths1 .temp (1/10)).2
      ≠ LAST_VALUES := by
  intro h
  have h2 := congrArg (fun lv => getLast lv .ths1 .temp) h
  simp only [generate_snd_eq, getLast_setLast_same, generate_fst_eq] at h2
  norm_num [getLast, LastValues.get, SensorState.get, LAST_VALUES, metricMin,
    metricMax, TEMP_MIN, TEMP_MAX] at h2

/-- C7 amended: the returned value is a pure function of the stored last
value for the given sensor/metric and the random draw, but the generator
itself writes the returned value back into the module-level `LAST_VALUES`
entry it read (changing no other entry); the caller does not persist it. -/
theorem C7_amended_value_pure_state_written (lv lv' : LastValues) (s : Sensor)
    (mt : MetricType) (c : ℚ) (h : getLast lv s mt = getLast lv' s mt) :
    (generate_random_walk_value lv s mt c).1
      = (generate_random_walk_value lv' s mt c).1
    ∧ (generate_random_walk_value lv s mt c).2
        = setLast lv s mt (generate_random_walk_value lv s mt c).1
    ∧ ∀ s' mt', ¬(s' = s ∧ mt' = mt) →
        getLast (generate_random_walk_value lv s mt c).2 s' mt'
          = getLast lv s' mt' := by
  refine ⟨?_, generate_snd_eq lv s mt c, ?_⟩
  · rw [generate_fst_eq, generate_fst_eq, h]
  · intro s' mt' hne
    rw [generate_snd_eq]
    exact getLast_setLast_other lv s s' mt mt' _ hne

/-- C7 amended witness: at the initial dict, sensor "THS No. 1" and the
temperature metric, the call writes exactly the returned value into that
entry and leaves the "THS No. 2" humidity entry unchanged. -/
theorem C7_amended_value_pure_state_written_witness :
    (generate_random_walk_value LAST_VALUES .ths1 .temp (1/10)).2
      = setLast LAST_VALUES .ths1 .temp
          (generate_random_walk_value LAST_VALUES .ths1 .temp (1/10)).1
    ∧ getLast (generate_random_walk_value LAST_VALUES .ths1 .temp (1/10)).2
        .ths2 .humidity = getLast LAST_VALUES .ths2 .humidity :=
  ⟨(C7_amended_value_pure_state_written LAST_VALUES LAST_VALUES .ths1 .temp
      (1/10) rfl).2.1,
   (C7_amended_value_pure_state_written LAST_VALUES LAST_VALUES .ths1 .temp
      (1/10) rfl).2.2 .ths2 .humidity (by decide)⟩

/-- C10: for every stored last value, including one outside the metric's
range, a single generator call returns a value within the metric's range
and overwrites exactly the read entry of the walk state with that returned
value; hence the in-range invariant on the walk state is established for
an entry by the first call touching it and preserved by every call. -/
theorem C10_walk_state_invariant (lv : LastValues) (s : Sensor)
    (mt : MetricType) (c : ℚ) :
    inRange mt (generate_random_walk_value lv s mt c).1
    ∧ (generate_random_walk_value lv s mt c).2
        = setLast lv s mt (generate_random_walk_value lv s mt c).1
    ∧ getLast (generate_random_walk_value lv s mt c).2 s mt
        = (generate_random_walk_value lv s mt c).1
    ∧ (WalkInvariant lv → WalkInvariant (generate_random_walk_value lv s mt c).2) := by
  refine ⟨generate_fst_mem_range lv s mt c, generate_snd_eq lv s mt c, ?_, ?_⟩
  · rw [generate_snd_eq]
    exact getLast_setLast_same lv s mt _
  · intro hinv s' mt'
    by_cases hsm : s' = s ∧ mt' = mt
    · obtain ⟨rfl, rfl⟩ := hsm
      rw [generate_snd_eq, getLast_setLast_same]
      exact generate_fst_mem_range lv s' mt' c
    · rw [generate_snd_eq, getLast_setLast_other lv s s' mt mt' _ hsm]
      exact hinv s' mt'

/-- C10 witness: with the "THS No. 1" temperature entry forced to 100,
far above the range, a single call yields an in-range value. -/
theorem C10_walk_state_invariant_witness :
    inRange .temp (generate_random_walk_value
      { LAST_VALUES with ths1 := { temp := 100, humidity := 55 } }
      .ths1 .temp 0).1 :=
  (C10_walk_state_invariant
    { LAST_VALUES with ths1 := { temp := 100, humidity := 55 } }
    .ths1 .temp 0).1

lemma hasKey_false_countKey_zero (s : Store) (ts : ℤ) (sid : String)
    (h : hasKey s ts sid = false) : countKey s ts sid = 0 := by
  rw [countKey, List.countP_eq_zero]
  intro a ha hpa
  have h2 : hasKey s ts sid = true := by
    rw [hasKey, List.any_eq_true]
    exact ⟨a, ha, hpa⟩
  rw [h] at h2
  cases h2

/-- C3: inserting a second reading with the same (sensor_id, timestamp) key
leaves exactly one stored row for that key: the second insert is rejected
with the UNIQUE-constraint error rather than overwriting the first row, and
the error handler swallows that error silently (no log line). -/
theorem C3_duplicate_insert_idempotent (s s' : Store) (r r2 : Reading)
    (hts : r2.timestamp = r.timestamp) (hsid : r2.sensor_id = r.sensor_id)
    (hfresh : hasKey s r.timestamp r.sensor_id = false)
    (hins : sqlInsert s r = .ok s') :
    countKey s' r.timestamp r.sensor_id = 1
    ∧ sqlInsert s' r2 = .error uniqueViolationMsg
    ∧ logInsertError uniqueViolationMsg = [] := by
  rw [sqlInsert, hfresh] at hins
  simp only [Bool.false_eq_true, if_false, Except.ok.injEq] at hins
  subst hins
  have hcount : countKey (s ++ [r]) r.timestamp r.sensor_id = 1 := by
    have h0 := hasKey_false_countKey_zero s r.timestamp r.sensor_id hfresh
    rw [countKey] at h0 ⊢
    rw [List.countP_append, h0]
    simp
  refine ⟨hcount, ?_, by decide⟩
  have hk : hasKey (s ++ [r]) r2.timestamp r2.sensor_id = true := by
    rw [hasKey, List.any_eq_true]
    exact ⟨r, by simp, by simp [hts, hsid]⟩
  rw [sqlInsert, hk]
  simp

/-- C3 witness: concrete duplicate pair for sensor "THS No. 1" at
timestamp 5. -/
theorem C3_duplicate_insert_idempotent_witness :
    countKey [{ timestamp := 5, sensor_id := "THS No. 1",
                temperature := 21, humidity := 55 }] 5 "THS No. 1" = 1
    ∧ sqlInsert [{ timestamp := 5, sensor_id := "THS No. 1",
                   temperature := 21, humidity := 55 }]
        { timestamp := 5, sensor_id := "THS No. 1",
          temperature := 22, humidity := 56 } = .error uniqueViolationMsg
    ∧ logInsertError uniqueViolationMsg = [] :=
  C3_duplicate_insert_idempotent []
    [{ timestamp := 5, sensor_id := "THS No. 1", temperature := 21, humidity := 55 }]
    { timestamp := 5, sensor_id := "THS No. 1", temperature := 21, humidity := 55 }
    { timestamp := 5, sensor_id := "THS No. 1", temperature := 22, humidity := 56 }
    rfl rfl rfl rfl

/-- C5: the retention DELETE removes all and only the rows with
timestamp < cutoff: the kept rows are a sublist of the table (each
surviving row unchanged, in order), a row survives with its original
multiplicity exactly when its timestamp is not below the cutoff (so rows
with timestamp = cutoff are retained), and the reported deleted count is
the number of rows below the cutoff. -/
theorem C5_delete_older_than (s : Store) (cutoff : ℤ) :
    (sqlDeleteOlderThan s cutoff).1.Sublist s
    ∧ (∀ r : Reading, r ∈ (sqlDeleteOlderThan s cutoff).1 ↔
        r ∈ s ∧ ¬ r.timestamp < cutoff)
    ∧ (∀ r : Reading, (sqlDeleteOlderThan s cutoff).1.count r
        = if r.timestamp < cutoff then 0 else s.count r)
    ∧ (sqlDeleteOlderThan s cutoff).2
        = s.countP fun r => decide (r.timestamp < cutoff) := by
  refine ⟨List.filter_sublist s, ?_, ?_, ?_⟩
  · intro r
    simp [sqlDeleteOlderThan, List.mem_filter]
  · intro r
    by_cases hr : r.timestamp < cutoff
    · rw [if_pos hr, List.count_eq_zero]
      simp [sqlDeleteOlderThan, List.mem_filter, hr]
    · rw [if_neg hr]
      exact List.count_filter (by simpa using hr)
  · have hlen := @List.length_eq_length_filter_add Reading s
      fun r => decide (¬ r.timestamp < cutoff)
    have hfe : (s.filter fun r => !(decide (¬ r.timestamp < cutoff)))
        = s.filter fun r => decide (r.timestamp < cutoff) :=
      List.filter_congr fun r _ => by
        rw [← decide_not]
        exact decide_eq_decide.mpr not_not
    rw [List.countP_eq_length_filter, ← hfe]
    simp only [sqlDeleteOlderThan]
    omega

/-- C5 witness: a three-row table with rows below, at, and above the
cutoff 10 keeps exactly the rows at and above it and reports one
deletion. -/
theorem C5_delete_older_than_witness :
    (sqlDeleteOlderThan
        [{ timestamp := 9, sensor_id := "THS No. 1", temperature := 21, humidity := 55 },
         { timestamp := 10, sensor_id := "THS No. 2", temperature := 22, humidity := 58 },
         { timestamp := 11, sensor_id := "THS No. 3", temperature := 20, humidity := 52 }]
        10).2 = 1 := by
  rw [(C5_delete_older_than
    [{ timestamp := 9, sensor_id := "THS No. 1", temperature := 21, humidity := 55 },
     { timestamp := 10, sensor_id := "THS No. 2", temperature := 22, humidity := 58 },
     { timestamp := 11, sensor_id := "THS No. 3", temperature := 20, humidity := 52 }]
    10).2.2.2]
  decide

/-- C9: the retention DELETE is idempotent: running it a second time with
the same cutoff deletes zero rows and leaves the table exactly as after
the first run. -/
theorem C9_delete_idempotent (s : Store) (cutoff : ℤ) :
    sqlDeleteOlderThan (sqlDeleteOlderThan s cutoff).1 cutoff
      = ((sqlDeleteOlderThan s cutoff).1, 0) := by
  simp [sqlDeleteOlderThan, List.filter_filter]

instance : IsTrans Reading rowLe where
  trans a b c hab hbc := by
    rcases hab with h1 | ⟨h1, h2⟩ <;> rcases hbc with h3 | ⟨h3, h4⟩
    · exact Or.inl (lt_trans h1 h3)
    · exact Or.inl (h3 ▸ h1)
    · exact Or.inl (h1 ▸ h3)
    · exact Or.inr ⟨h1.trans h3, le_trans h2 h4⟩

instance : IsTotal Reading rowLe where
  total a b := by
    rcases lt_trichotomy a.sensor_id b.sensor_id with h | h | h
    · exact Or.inl (Or.inl h)
    · rcases le_total a.timestamp b.timestamp with ht | ht
      · exact Or.inl (Or.inr ⟨h, ht⟩)
      · exact Or.inr (Or.inr ⟨h.symm, ht⟩)
    · exact Or.inr (Or.inl h)

/-- C4: the windowed read returns exactly the stored readings with
timestamp > now - minutes*60 (as a permutation of the filtered table, and
as a membership equivalence), sorted by sensor_id and then timestamp
ascending; in particular with the 60-minute window no returned row has
timestamp ≤ now - 3600. -/
theorem C4_query_window (store : Store) (now minutes : ℤ) :
    (get_metrics_last_n_minutes store now minutes).Perm
      (store.filter fun r => decide (now - minutes * 60 < r.timestamp))
    ∧ List.Sorted rowLe (get_metrics_last_n_minutes store now minutes)
    ∧ (∀ r : Reading, r ∈ get_metrics_last_n_minutes store now minutes ↔
        r ∈ store ∧ now - minutes * 60 < r.timestamp)
    ∧ (∀ r ∈ get_metrics_last_n_minutes store now 60,
        ¬ r.timestamp ≤ now - 3600) := by
  refine ⟨List.perm_insertionSort rowLe _, List.sorted_insertionSort rowLe _, ?_, ?_⟩
  · intro r
    simp only [get_metrics_last_n_minutes]
    rw [(List.perm_insertionSort rowLe _).mem_iff]
    simp [List.mem_filter]
  · intro r hr
    simp only [get_metrics_last_n_minutes] at hr
    rw [(List.perm_insertionSort rowLe _).mem_iff, List.mem_filter] at hr
    have h2 := of_decide_eq_true hr.2
    omega

/-- C6: the claim names the endpoint path "/metrics", but main.py registers
the metrics handler at "/api/metrics". -/
theorem C6_counterexample : metricsRoutePath ≠ "/metrics" := by decide

/-- C6 amended: GET /api/metrics always responds 200 OK with the current
server timestamp and a data list of readings (each carrying timestamp,
sensor_id, temperature and humidity) drawn from the store's 60-minute
window, ordered by sensor_id then timestamp ascending; against a store
with no rows in the window the data list is empty. -/
theorem C6_amended_metrics_endpoint (store : Store) (now : ℤ) :
    (get_metrics store now).status = 200
    ∧ (get_metrics store now).timestamp = now
    ∧ List.Sorted rowLe (get_metrics store now).data
    ∧ (∀ r ∈ (get_metrics store now).data, r ∈ store ∧ now - 3600 < r.timestamp)
    ∧ ((∀ r ∈ store, r.timestamp ≤ now - 3600) →
        (get_metrics store now).data = []) := by
  refine ⟨rfl, rfl, List.sorted_insertionSort rowLe _, ?_, ?_⟩
  · intro r hr
    rw [get_metrics] at hr
    have h := ((C4_query_window store now 60).2.2.1 r).mp hr
    exact ⟨h.1, by omega⟩
  · intro hempty
    show List.insertionSort rowLe _ = []
    rw [List.filter_eq_nil_iff.mpr ?_]
    · rfl
    · intro r hr
      have := hempty r hr
      simp only [decide_eq_true_eq]
      omega

/-- C6 amended witness: against the empty store at server time 0 the
response is status 200 with an empty data list. -/
theorem C6_amended_metrics_endpoint_witness :
    (get_metrics [] 0).status = 200 ∧ (get_metrics [] 0).data = [] :=
  ⟨(C6_amended_metrics_endpoint [] 0).1,
   (C6_amended_metrics_endpoint [] 0).2.2.2.2 (by simp)⟩

/-- A table that already holds a "THS No. 1" row at timestamp 5, making the
first sensor's insert of a tick at timestamp 5 violate the UNIQUE key. -/
def dupStore : Store :=
  [{ timestamp := 5, sensor_id := "THS No. 1", temperature := 21, humidity := 55 }]

/-- Random draws that always pick the perturbation 0. -/
def zeroDraws : Sensor → MetricType → ℚ := fun _ _ => 0

/-- C2: the claim that a failed insert for one sensor leaves the other
sensors' readings of the same tick persisted is false.  Concretely: with a
table already holding a "THS No. 1" row at timestamp 5, a tick at
timestamp 5 has its first sensor's insert raise the UNIQUE-constraint
error; the loop exits before the remaining sensors, the commit is never
reached, so the tick persists nothing — afterwards the table still has no
"THS No. 2" row at timestamp 5 — and the duplicate error is not even
logged. -/
theorem C2_counterexample :
    (generate_and_insert_metric dupStore LAST_VALUES 5 5 zeroDraws).store = dupStore
    ∧ hasKey (generate_and_insert_metric dupStore LAST_VALUES 5 5 zeroDraws).store
        5 "THS No. 2" = false
    ∧ (generate_and_insert_metric dupStore LAST_VALUES 5 5 zeroDraws).logs = [] := by
  have h : insertLoop SENSORS dupStore LAST_VALUES 5 zeroDraws
      = .failed uniqueViolationMsg
          (generate_random_walk_value
            (generate_random_walk_value LAST_VALUES .ths1 .temp 0).2
            .ths1 .humidity 0).2 := by
    simp [SENSORS, insertLoop, sqlInsert, hasKey, dupStore, zeroDraws, Sensor.name]
  refine ⟨?_, ?_, ?_⟩ <;>
  · simp only [generate_and_insert_metric]
    rw [h]
    simp [clean_old_data, sqlDeleteOlderThan, dupStore, hasKey, logInsertError]
    try decide

/-- C2 amended: when a sensor's insert raises during a tick, the loop over
sensors exits and the single commit at the end of the tick is never
executed, so none of that tick's readings — neither the failing sensor's
nor the remaining sensors' — is persisted: the committed table after the
tick is exactly the pruned original table and holds no row that was not
already stored; the error is logged only when it is not a
UNIQUE-constraint duplicate, and the prune still runs. -/
theorem C2_amended_failed_insert_aborts_tick (store : Store) (lv : LastValues)
    (ts now : ℤ) (draws : Sensor → MetricType → ℚ) (msg : String)
    (lv2 : LastValues)
    (hfail : insertLoop SENSORS store lv ts draws = .failed msg lv2) :
    (generate_and_insert_metric store lv ts now draws).store
      = (clean_old_data store now 60).1
    ∧ (∀ r ∈ (generate_and_insert_metric store lv ts now draws).store, r ∈ store)
    ∧ (generate_and_insert_metric store lv ts now draws).logs
        = logInsertError msg := by
  have hg : generate_and_insert_metric store lv ts now draws
      = { store := (clean_old_data store now 60).1, lv := lv2,
          logs := logInsertError msg } := by
    simp only [generate_and_insert_metric]
    rw [hfail]
  rw [hg]
  refine ⟨rfl, ?_, rfl⟩
  intro r hr
  exact (List.filter_sublist store).subset hr

/-- C2 amended witness: the concrete duplicate-key tick of the
counterexample scenario, instantiating the amended theorem. -/
theorem C2_amended_failed_insert_aborts_tick_witness :
    (generate_and_insert_metric dupStore LAST_VALUES 5 5 zeroDraws).store
      = (clean_old_data dupStore 5 60).1
    ∧ (generate_and_insert_metric dupStore LAST_VALUES 5 5 zeroDraws).logs
        = logInsertError uniqueViolationMsg :=
  ⟨(C2_amended_failed_insert_aborts_tick dupStore LAST_VALUES 5 5 zeroDraws
      uniqueViolationMsg
      (generate_random_walk_value
        (generate_random_walk_value LAST_VALUES .ths1 .temp 0).2
        .ths1 .humidity 0).2
      (by simp [SENSORS, insertLoop, sqlInsert, hasKey, dupStore, zeroDraws,
        Sensor.name])).1,
   (C2_amended_failed_insert_aborts_tick dupStore LAST_VALUES 5 5 zeroDraws
      uniqueViolationMsg
      (generate_random_walk_value
        (generate_random_walk_value LAST_VALUES .ths1 .temp 0).2
        .ths1 .humidity 0).2
      (by simp [SENSORS, insertLoop, sqlInsert, hasKey, dupStore, zeroDraws,
        Sensor.name])).2.2⟩

lemma hasKey_of_all_ts_ne (s : Store) (ts : ℤ) (sid : String)
    (h : ∀ r ∈ s, r.timestamp ≠ ts) : hasKey s ts sid = false := by
  rw [hasKey, List.any_eq_false]
  intro r hr
  simp [h r hr]

lemma insertLoop_fresh (sensors : List Sensor) :
    ∀ (pending : Store) (lv : LastValues) (ts : ℤ)
      (draws : Sensor → MetricType → ℚ),
      (∀ s ∈ sensors, hasKey pending ts s.name = false) →
      (sensors.map Sensor.name).Nodup →
      ∃ rows lv2,
        insertLoop sensors pending lv ts draws = .ok (pending ++ rows) lv2
        ∧ rows.length = sensors.length
        ∧ (∀ r ∈ rows, r.timestamp = ts)
        ∧ rows.map Reading.sensor_id = sensors.map Sensor.name := by
  induction sensors with
  | nil =>
    intro pending lv ts draws _ _
    exact ⟨[], lv, by simp [insertLoop], by simp, by simp, by simp⟩
  | cons s rest ih =>
    intro pending lv ts draws hfresh hnodup
    have hs : hasKey pending ts s.name = false := hfresh s (List.mem_cons_self s rest)
    rw [List.map_cons] at hnodup
    obtain ⟨hnotmem, htail⟩ := List.nodup_cons.mp hnodup
    set gt := generate_random_walk_value lv s .temp (draws s .temp) with hgt
    set gh := generate_random_walk_value gt.2 s .humidity (draws s .humidity) with hgh
    set row : Reading :=
      { timestamp := ts, sensor_id := s.name, temperature := gt.1, humidity := gh.1 }
      with hrow
    have hins : sqlInsert pending row = .ok (pending ++ [row]) := by
      rw [sqlInsert]
      simp [hrow, hs]
    have hstep : insertLoop (s :: rest) pending lv ts draws
        = insertLoop rest (pending ++ [row]) gh.2 ts draws := by
      simp only [insertLoop, ← hgt, ← hgh, ← hrow]
      rw [hins]
    have hfresh2 : ∀ s' ∈ rest, hasKey (pending ++ [row]) ts s'.name = false := by
      intro s' hs'
      rw [hasKey, List.any_append]
      have h1 : hasKey pending ts s'.name = false :=
        hfresh s' (List.mem_cons_of_mem s hs')
      rw [hasKey] at h1
      have hne : s.name ≠ s'.name := by
        intro hcontra
        exact hnotmem (hcontra ▸ List.mem_map_of_mem Sensor.name hs')
      simp [h1, hrow, hne]
    obtain ⟨rows2, lv2, heq, hlen, hts2, hmap⟩ :=
      ih (pending ++ [row]) gh.2 ts draws hfresh2 htail
    refine ⟨row :: rows2, lv2, ?_, by simp [hlen], ?_, by simp [hmap, hrow]⟩
    · rw [hstep, heq, List.append_assoc]
      rfl
    · intro r hr
      rcases List.mem_cons.mp hr with h | h
      · rw [h, hrow]
      · exact hts2 r h

lemma tick_fresh (store : Store) (lv : LastValues) (ts now : ℤ)
    (draws : Sensor → MetricType → ℚ)
    (hfresh : ∀ s ∈ SENSORS, hasKey store ts s.name = false) :
    ∃ rows lv2,
      generate_and_insert_metric store lv ts now draws
        = { store := (clean_old_data (store ++ rows) now 60).1, lv := lv2, logs := [] }
      ∧ rows.length = 3
      ∧ (∀ r ∈ rows, r.timestamp = ts)
      ∧ rows.map Reading.sensor_id = ["THS No. 1", "THS No. 2", "THS No. 3"] := by
  obtain ⟨rows, lv2, heq, hlen, hts2, hmap⟩ :=
    insertLoop_fresh SENSORS store lv ts draws hfresh (by decide)
  refine ⟨rows, lv2, ?_, by simpa [SENSORS] using hlen, hts2,
    by simpa [SENSORS, Sensor.name] using hmap⟩
  simp only [generate_and_insert_metric]
  rw [heq]

lemma clean_keep_all (s : Store) (now : ℤ)
    (h : ∀ r ∈ s, now - 3600 ≤ r.timestamp) :
    (clean_old_data s now 60).1 = s := by
  simp only [clean_old_data, sqlDeleteOlderThan]
  rw [List.filter_eq_self]
  intro r hr
  have := h r hr
  simp only [decide_eq_true_eq]
  omega

lemma runTicks_cons (store : Store) (lv : LastValues) (t : ℤ)
    (d : Sensor → MetricType → ℚ)
    (rest : List (ℤ × (Sensor → MetricType → ℚ))) :
    runTicks store lv ((t, d) :: rest)
      = runTicks (generate_and_insert_metric store lv t t d).store
          (generate_and_insert_metric store lv t t d).lv rest := rfl

lemma filter_ts_all (rows : Store) (t : ℤ) (h : ∀ r ∈ rows, r.timestamp = t) :
    (rows.filter fun r => decide (r.timestamp = t)) = rows := by
  rw [List.filter_eq_self]
  intro r hr
  simp [h r hr]

lemma filter_ts_none (rows : Store) (t t' : ℤ) (h : ∀ r ∈ rows, r.timestamp = t)
    (hne : t ≠ t') :
    (rows.filter fun r => decide (r.timestamp = t')) = [] := by
  rw [List.filter_eq_nil_iff]
  intro r hr
  simp [h r hr, hne]

/-- C8: within a tick the timestamp is shared by all three sensors, so
running the sampler loop for three ticks at distinct wall-clock seconds
(all within the retention window) from an empty store yields exactly nine
rows; every row carries one of the three tick timestamps, and for each tick
timestamp the rows carrying it are exactly one per sensor, in the fixed
sensor order. -/
theorem C8_three_ticks (lv : LastValues) (t1 t2 t3 : ℤ)
    (d1 d2 d3 : Sensor → MetricType → ℚ)
    (h12 : t1 < t2) (h23 : t2 < t3) (hwin : t3 ≤ t1 + 3600) :
    (runTicks [] lv [(t1, d1), (t2, d2), (t3, d3)]).1.length = 9
    ∧ (∀ r ∈ (runTicks [] lv [(t1, d1), (t2, d2), (t3, d3)]).1,
        r.timestamp = t1 ∨ r.timestamp = t2 ∨ r.timestamp = t3)
    ∧ (∀ t ∈ [t1, t2, t3],
        ((runTicks [] lv [(t1, d1), (t2, d2), (t3, d3)]).1.filter
            fun r => decide (r.timestamp = t)).map Reading.sensor_id
          = ["THS No. 1", "THS No. 2", "THS No. 3"]) := by
  obtain ⟨rows1, lvA, heq1, hlen1, hts1, hmap1⟩ :=
    tick_fresh [] lv t1 t1 d1 (fun s _ => rfl)
  have hstore1 : (generate_and_insert_metric [] lv t1 t1 d1).store = rows1 := by
    rw [heq1]
    show (clean_old_data ([] ++ rows1) t1 60).1 = rows1
    rw [List.nil_append]
    exact clean_keep_all rows1 t1 fun r hr => by have := hts1 r hr; omega
  have hlv1 : (generate_and_insert_metric [] lv t1 t1 d1).lv = lvA := by rw [heq1]
  obtain ⟨rows2, lvB, heq2, hlen2, hts2, hmap2⟩ :=
    tick_fresh rows1 lvA t2 t2 d2
      (fun s _ => hasKey_of_all_ts_ne rows1 t2 s.name
        fun r hr => by have := hts1 r hr; omega)
  have hstore2 : (generate_and_insert_metric rows1 lvA t2 t2 d2).store
      = rows1 ++ rows2 := by
    rw [heq2]
    show (clean_old_data (rows1 ++ rows2) t2 60).1 = rows1 ++ rows2
    refine clean_keep_all _ t2 fun r hr => ?_
    rcases List.mem_append.mp hr with h | h
    · have := hts1 r h; omega
    · have := hts2 r h; omega
  have hlv2 : (generate_and_insert_metric rows1 lvA t2 t2 d2).lv = lvB := by
    rw [heq2]
  obtain ⟨rows3, lvC, heq3, hlen3, hts3, hmap3⟩ :=
    tick_fresh (rows1 ++ rows2) lvB t3 t3 d3
      (fun s _ => hasKey_of_all_ts_ne (rows1 ++ rows2) t3 s.name
        fun r hr => by
          rcases List.mem_append.mp hr with h | h
          · have := hts1 r h; omega
          · have := hts2 r h; omega)
  have hstore3 : (generate_and_insert_metric (rows1 ++ rows2) lvB t3 t3 d3).store
      = (rows1 ++ rows2) ++ rows3 := by
    rw [heq3]
    show (clean_old_data ((rows1 ++ rows2) ++ rows3) t3 60).1
      = (rows1 ++ rows2) ++ rows3
    refine clean_keep_all _ t3 fun r hr => ?_
    rcases List.mem_append.mp hr with h | h
    · rcases List.mem_append.mp h with h2 | h2
      · have := hts1 r h2; omega
      · have := hts2 r h2; omega
    · have := hts3 r h; omega
  have hlv3 : (generate_and_insert_metric (rows1 ++ rows2) lvB t3 t3 d3).lv
      = lvC := by rw [heq3]
  have hfinal : (runTicks [] lv [(t1, d1), (t2, d2), (t3, d3)]).1
      = (rows1 ++ rows2) ++ rows3 := by
    rw [runTicks_cons, hstore1, hlv1, runTicks_cons, hstore2, hlv2,
      runTicks_cons, hstore3, hlv3]
    rfl
  rw [hfinal]
  refine ⟨by simp [hlen1, hlen2, hlen3], ?_, ?_⟩
  · intro r hr
    rcases List.mem_append.mp hr with h | h
    · rcases List.mem_append.mp h with h2 | h2
      · exact Or.inl (hts1 r h2)
      · exact Or.inr (Or.inl (hts2 r h2))
    · exact Or.inr (Or.inr (hts3 r h))
  · intro t ht
    rw [List.filter_append, List.filter_append]
    rcases List.mem_cons.mp ht with rfl | ht2
    · rw [filter_ts_all rows1 t hts1,
        filter_ts_none rows2 t2 t hts2 (by omega),
        filter_ts_none rows3 t3 t hts3 (by omega)]
      simpa using hmap1
    rcases List.mem_cons.mp ht2 with rfl | ht3
    · rw [filter_ts_all rows2 t hts2,
        filter_ts_none rows1 t1 t hts1 (by omega),
        filter_ts_none rows3 t3 t hts3 (by omega)]
      simpa using hmap2
    rcases List.mem_cons.mp ht3 with rfl | ht4
    · rw [filter_ts_all rows3 t hts3,
        filter_ts_none rows1 t1 t hts1 (by omega),
        filter_ts_none rows2 t2 t hts2 (by omega)]
      simpa using hmap3
    · cases ht4

/-- C8 witness: three ticks at seconds 0, 1, 2 with all draws 0 from the
empty store yield nine rows. -/
theorem C8_three_ticks_witness :
    (runTicks [] LAST_VALUES
      [((0 : ℤ), fun _ _ => (0 : ℚ)), (1, fun _ _ => 0), (2, fun _ _ => 0)]).1.length
      = 9 :=
  (C8_three_ticks LAST_VALUES 0 1 2 (fun _ _ => 0) (fun _ _ => 0) (fun _ _ => 0)
    (by norm_num) (by norm_num) (by norm_num)).1

end RTDash
